import Mathlib

/-!
Shallow embedding of the waterly irrigation controller (danluca/waterly),
covering the measurement unit conversion, the pulse counter volume
computation, the weather decision engine, the gardening-season check, the
daily watering guard of the scheduler, the relay shutdown of a watering
cycle, and the Modbus presence flag of the RS-485 sensor base class.

Machine floats of the Python source are modelled as exact rationals (ℚ);
Python strings as Lean `String`; `None`-able values as `Option`.
-/

namespace Waterly

/-! ## model/measurement.py : convert_measurement

Python's `Unit` is a `StrEnum`, so unit equality in `convert_measurement`
is plain string equality on the enum values ("°C", "°F", "L", "gal",
"in", "mm"); units are therefore embedded as `String`. -/

def convert_measurement (value : Option ℚ) (current_unit new_unit : String) : Option ℚ :=
  if current_unit = new_unit then value
  else
    match value with
    | none => none
    | some v =>
      if current_unit = "°C" ∧ new_unit = "°F" then some (v * 9 / 5 + 32)
      else if current_unit = "°F" ∧ new_unit = "°C" then some ((v - 32) * 5 / 9)
      else if current_unit = "L" ∧ new_unit = "gal" then some (v / 3.785411784)
      else if current_unit = "gal" ∧ new_unit = "L" then some (v * 3.785411784)
      else if current_unit = "in" ∧ new_unit = "mm" then some (v * 25.4)
      else if current_unit = "mm" ∧ new_unit = "in" then some (v / 25.4)
      else some v

/-- The six ordered unit pairs handled by the `match` in `convert_measurement`. -/
def supported_conversions : List (String × String) :=
  [("°C", "°F"), ("°F", "°C"), ("L", "gal"), ("gal", "L"), ("in", "mm"), ("mm", "in")]

/-! ## pulses.py : PulseCounter.read_and_reset_liters

The counter state is the accumulated pulse count; the method snapshots
and zeroes it before the duration check, then computes liters. The
result is the pair (returned liters, counter value after the call). -/

def WATER_FLOW_FREQUENCY_FACTOR : ℚ := 5.5

def read_and_reset_liters (count : ℕ) (seconds : ℚ) : ℚ × ℕ :=
  let pulses : ℚ := count
  if seconds ≤ 0 then (0, 0)
  else
    let freq := pulses / seconds
    let flow_lpm := freq / WATER_FLOW_FREQUENCY_FACTOR
    let liters := flow_lpm * (seconds / 60)
    (liters, 0)

/-! ## weather.py : WeatherService.should_water_garden

Timestamps are rationals measured in hours, so `timedelta(hours=12)` is
the literal `12`. The Python loop accumulates sums, a running max and
counts over the rows passing each window filter; that is embedded as
`List.filter` followed by sum / fold / length. The method reads
`self._precip_prob_threshold` from configuration; it is a parameter here.
The Python chained comparisons are kept verbatim:
`now > w.timestamp >= horizon_from` and `horizon_to <= w.timestamp < now`. -/

structure WeatherData where
  timestamp : ℚ
  temperature : ℚ
  soil_humidity : ℚ
  precipitation_amount : ℚ
  precipitation_unit : String
  precipitation_prob : ℚ
deriving Repr, DecidableEq

def RAIN_12H_THRESHOLD_INCHES : ℚ := 0.02

def should_water_garden (weather_data : List WeatherData)
    (now precip_prob_threshold : ℚ) : Bool :=
  match weather_data with
  | [] => true
  | w0 :: _ =>
    let horizon_from := now - 12
    let horizon_to := now + 12
    let past_rows := weather_data.filter
      (fun w => decide (now > w.timestamp) && decide (w.timestamp ≥ horizon_from))
    let future_rows := weather_data.filter
      (fun w => decide (horizon_to ≤ w.timestamp) && decide (w.timestamp < now))
    let past_12h_rain := (past_rows.map (·.precipitation_amount)).sum
    let next_12h_prob := future_rows.foldl (fun acc w => max acc w.precipitation_prob) 0
    let next_12h_rain := (future_rows.map (·.precipitation_amount)).sum
    let future_data_points := future_rows.length
    let precip_unit := (weather_data.getLast? |>.getD w0).precipitation_unit
    let rain_12_threshold : ℚ :=
      match convert_measurement (some RAIN_12H_THRESHOLD_INCHES) "inch" precip_unit with
      | some t => t
      | none => 0
    let should_not_water :=
      decide (past_12h_rain > rain_12_threshold) ||
        (decide (next_12h_prob > precip_prob_threshold) &&
          decide (next_12h_rain > rain_12_threshold))
    (!should_not_water) || decide (future_data_points < 6)

/-- A concrete weather state for exercising `should_water_garden`: one row
an hour in the past carrying a full inch of rain (fifty times the 0.02 in
threshold) and six forecast rows inside the coming 12 hours, evaluated at
`now = 100` with probability threshold `50`. -/
def c1_failing_weather : List WeatherData :=
  [⟨99, 70, 0.2, 1, "inch", 0⟩,
   ⟨101, 70, 0.2, 0, "inch", 0⟩, ⟨102, 70, 0.2, 0, "inch", 0⟩,
   ⟨103, 70, 0.2, 0, "inch", 0⟩, ⟨104, 70, 0.2, 0, "inch", 0⟩,
   ⟨105, 70, 0.2, 0, "inch", 0⟩, ⟨106, 70, 0.2, 0, "inch", 0⟩]

/-! ## scheduler.py : gardening season -/

/-- Python `str.strip()` on a character list: drop whitespace at both ends. -/
def py_strip (cs : List Char) : List Char :=
  ((cs.dropWhile Char.isWhitespace).reverse.dropWhile Char.isWhitespace).reverse

/-- Value of a nonempty all-digit character run, else `none`. -/
def digits_val : List Char → Option ℕ
  | [] => none
  | cs =>
    if cs.all Char.isDigit then
      some (cs.foldl (fun a c => a * 10 + (c.toNat - 48)) 0)
    else none

/-- Python `int(str)`: strips surrounding whitespace, accepts an optional
sign, then requires a nonempty digit string (raises → `none` otherwise). -/
def py_int_chars (cs : List Char) : Option ℤ :=
  match py_strip cs with
  | '-' :: rest => (digits_val rest).map (fun n => -(n : ℤ))
  | '+' :: rest => (digits_val rest).map (fun n => (n : ℤ))
  | t => (digits_val t).map (fun n => (n : ℤ))

def py_int (s : String) : Option ℤ := py_int_chars s.data

/-- Python `md.split("-", 1)`: the part before the first dash and the rest
after it; `none` when the string holds no dash (unpacking into two names
raises there). -/
def split_first_dash : List Char → Option (List Char × List Char)
  | [] => none
  | c :: rest =>
    if c = '-' then some ([], rest)
    else
      match split_first_dash rest with
      | none => none
      | some (a, b) => some (c :: a, b)

/-- `WateringManager._parse_month_day`: `md.split("-", 1)` splits at the
first dash only, so everything after the first dash is the day field;
unpacking fails when there is no dash, `int()` fails on a non-numeric
field, and out-of-range month/day raises — all caught, yielding `None`. -/
def parse_month_day (md : String) : Option (ℤ × ℤ) :=
  match split_first_dash md.data with
  | none => none
  | some (m_cs, d_cs) =>
    match py_int_chars m_cs, py_int_chars d_cs with
    | some m, some d =>
      if 1 ≤ m ∧ m ≤ 12 ∧ 1 ≤ d ∧ d ≤ 31 then some (m, d) else none
    | _, _ => none

/-- Python tuple comparison `(m1, d1) <= (m2, d2)` is lexicographic. -/
def md_le (a b : ℤ × ℤ) : Bool :=
  decide (a.1 < b.1) || (decide (a.1 = b.1) && decide (a.2 ≤ b.2))

/-- A raised Python exception, as far as the modelled code distinguishes
them: `AttributeError` on a missing attribute (carrying the attribute
name), or an exception escaping one zone of the watering loop. -/
inductive PyError where
  | attributeError (name : String)
  | zoneException (zone : String)
deriving Repr, DecidableEq

/-- The members of the `Settings` enum in config.py:55-81 (the enum
scheduler.py imports). There is no `GARDENING_SEASON_START` and no
`GARDENING_SEASON_END` member — only the single `GARDENING_SEASON` entry
whose default is the dict `{"start": "03-31", "stop": "10-31"}`. -/
def settings_members : List String :=
  ["HUMIDITY_TARGET_PERCENT", "WATERING_START_TIME",
   "WATERING_MAX_MINUTES_PER_ZONE", "LAST_WATERING_DATE",
   "RAIN_CANCEL_PROBABILITY_THRESHOLD", "UNITS",
   "WEATHER_CHECK_INTERVAL_SECONDS", "WEATHER_CHECK_PRE_WATERING_SECONDS",
   "WEATHER_LAST_CHECK_TIMESTAMP", "SENSOR_READ_INTERVAL_SECONDS",
   "MINIMUM_SENSOR_HUMIDITY_PERCENT", "TREND_MAX_SAMPLES",
   "LOCAL_TIMEZONE", "LOCATION", "GARDENING_SEASON"]

/-- `CONFIG[Settings.<name>]` as written at scheduler.py:102-103: Python
first resolves the attribute `Settings.<name>`, raising `AttributeError`
when the enum has no such member; only then is the configuration store
read (modelled by the stored string being returned). -/
def config_get (name : String) (stored : String) : Except PyError String :=
  if name ∈ settings_members then .ok stored
  else .error (.attributeError name)

/-- `WateringManager._is_in_gardening_season` (scheduler.py:96-109) on a
datetime with `t = (dt.month, dt.day)`; the configured start/stop strings
are passed in. Line 102 evaluates `CONFIG[Settings.GARDENING_SEASON_START]`,
and resolving the member raises `AttributeError` before the configured
string is read or parsed, so everything past the first `config_get` here is
dead code reached by no input. In that dead region the
`or self._parse_month_day(Settings.<key>.default)` fallback of lines
102-103 is folded away: reaching it would resolve `.default` on the same
missing members and raise identically. The `| _, _` arm (Python would
raise `TypeError` ordering `None` against a tuple) is likewise dead. -/
def is_in_gardening_season (cfg_start cfg_stop : String) (t : ℤ × ℤ) :
    Except PyError Bool :=
  match config_get "GARDENING_SEASON_START" cfg_start with
  | .error e => .error e
  | .ok s_str =>
    match config_get "GARDENING_SEASON_END" cfg_stop with
    | .error e => .error e
    | .ok e_str =>
      match parse_month_day s_str, parse_month_day e_str with
      | some s, some e =>
        .ok (if md_le s e then md_le s t && md_le t e
             else md_le s t || md_le t e)
      | _, _ => .ok false

/-! ## scheduler.py : WateringManager._run daily guard -/

/-- scheduler.py:142 `self.weather.get_next_12h_rain_probability()`:
`WeatherService` (weather.py, read in full) defines no such method, so the
call raises `AttributeError`. (Dead in practice: line 135 raises first.) -/
def get_next_12h_rain_probability : Except PyError ℚ :=
  .error (.attributeError "get_next_12h_rain_probability")

/-- One iteration of the `while` loop in `_run` (scheduler.py:130-152),
restricted to the daily-watering part. The state is
`self._last_watering_date : Optional[str]`; `today` is
`now.strftime("%Y-%m-%d")` and `time_ok = (now.time() >= self._start_time)`;
`cfg_start`/`cfg_stop`/`md` feed the season check and `rain_thr` is
`self._rain_thr`. A tick passing both guards calls
`_is_in_gardening_season` (line 135), which raises `AttributeError`
(missing `Settings` member) with nothing stored; the rain branch at
line 142 would raise on the missing `get_next_12h_rain_probability` even
if reached. `.ok (date, watered)` gives the stored date and whether
`_perform_watering` was started this tick. -/
def sched_tick (last_watering_date : Option String) (today : String)
    (time_ok : Bool) (cfg_start cfg_stop : String) (md : ℤ × ℤ)
    (rain_thr : ℚ) : Except PyError (Option String × Bool) :=
  if last_watering_date ≠ some today then
    if time_ok then
      match is_in_gardening_season cfg_start cfg_stop md with
      | .error e => .error e
      | .ok in_season =>
        if !in_season then .ok (some today, false)
        else
          match get_next_12h_rain_probability with
          | .error e => .error e
          | .ok rain_prob =>
            if rain_prob ≥ rain_thr then .ok (some today, false)
            else .ok (some today, true)
    else .ok (last_watering_date, false)
  else .ok (last_watering_date, false)

/-- A run of consecutive loop iterations within one calendar-local date,
counting the ticks that started `_perform_watering`. `_run` has no
exception handler around its loop body, so a raising tick ends the loop
(the scheduler thread dies) with the stored date unchanged. -/
def sched_run (last_watering_date : Option String) (today : String)
    (cfg_start cfg_stop : String) (md : ℤ × ℤ) (rain_thr : ℚ) :
    List Bool → Option String × ℕ
  | [] => (last_watering_date, 0)
  | time_ok :: rest =>
    match sched_tick last_watering_date today time_ok cfg_start cfg_stop md rain_thr with
    | .error _ => (last_watering_date, 0)
    | .ok (stored, watered) =>
      let tail := sched_run stored today cfg_start cfg_stop md rain_thr rest
      (tail.1, (if watered then 1 else 0) + tail.2)

/-! ## patch.py relays and scheduler.py : WateringManager._perform_watering -/

/-- A zone's relay binding: `patch.relay_device.value` is `relay`. -/
structure PatchM where
  name : String
  relay : Bool
deriving Repr, DecidableEq

/-- `Patch.start_watering`: sets `relay_device.value = True`. -/
def start_watering (p : PatchM) : PatchM := { p with relay := true }

/-- `Patch.stop_watering`: sets `relay_device.value = False`. -/
def stop_watering (p : PatchM) : PatchM := { p with relay := false }

/-- What the body of `_perform_watering` does to one zone. The relay is
energized between `patch.start_watering()` and `patch.stop_watering()`;
an exception may interrupt the zone before the relay is energized, while
it is energized, or after it was already turned off. -/
inductive ZoneOutcome where
  | skipped        -- humidity already at target: `continue`, relay untouched
  | completed      -- full loop: relay on then off
  | raisedBeforeOn -- exception before `start_watering`; relay untouched
  | raisedWhileOn  -- exception after `start_watering`, before `stop_watering`
  | raisedAfterOff -- exception after `stop_watering`
deriving Repr, DecidableEq

def zone_relay_effect (p : PatchM) : ZoneOutcome → PatchM
  | .skipped => p
  | .completed => stop_watering (start_watering p)
  | .raisedBeforeOn => p
  | .raisedWhileOn => start_watering p
  | .raisedAfterOff => stop_watering (start_watering p)

def zone_raises : ZoneOutcome → Bool
  | .skipped => false
  | .completed => false
  | .raisedBeforeOn => true
  | .raisedWhileOn => true
  | .raisedAfterOff => true

/-- In-place mutation of the patch objects shared between the sorted
iteration order and `self.patches`: update by zone name. -/
def update_patch (ps : List PatchM) (nm : String) (f : PatchM → PatchM) : List PatchM :=
  ps.map (fun p => if p.name = nm then f p else p)

/-- Python string `<`: lexicographic comparison by code point. -/
def py_str_lt : List Char → List Char → Bool
  | [], [] => false
  | [], _ :: _ => true
  | _ :: _, [] => false
  | a :: as, b :: bs =>
    if a.toNat < b.toNat then true
    else if b.toNat < a.toNat then false
    else py_str_lt as bs

/-- Insertion sort by zone name, mirroring
`sorted(self.patches, key=lambda p: p.zone.name)`. -/
def insert_by_name (p : PatchM) : List PatchM → List PatchM
  | [] => [p]
  | q :: rest =>
    if py_str_lt p.name.data q.name.data then p :: q :: rest
    else q :: insert_by_name p rest

def sort_by_name (ps : List PatchM) : List PatchM :=
  ps.foldr insert_by_name []

/-- The `try` body of `_perform_watering` (scheduler.py:211-250): process
zone names in sorted order; the first zone that raises aborts the
remaining zones (there is no per-zone handler inside the loop). Returns
the patch states and the first raising zone, if any. -/
def watering_body_go (oracle : String → ZoneOutcome) :
    List String → List PatchM → List PatchM × Option String
  | [], st => (st, none)
  | nm :: rest, st =>
    let st' := update_patch st nm (fun p => zone_relay_effect p (oracle nm))
    if zone_raises (oracle nm) then (st', some nm)
    else watering_body_go oracle rest st'

def watering_body (ps : List PatchM) (oracle : String → ZoneOutcome) :
    List PatchM × Option String :=
  watering_body_go oracle ((sort_by_name ps).map (·.name)) ps

/-- scheduler.py:208 `self.pulses.read_and_reset(metric)`: `PulseCounter`
(pulses.py) defines no method `read_and_reset` (only
`read_and_reset_liters`), so the call raises `AttributeError`. The same
holds for `reset_count` at line 219 and `read_and_reset` again at 244,
inside the (already unreachable) `try` body. -/
def pulses_read_and_reset : Except PyError ℚ :=
  .error (.attributeError "read_and_reset")

/-- `_perform_watering` (scheduler.py:190-254): the leak probe at line 208
runs BEFORE the `try` at line 211 and raises `AttributeError`
(`PulseCounter` has no `read_and_reset`), so the method exits with every
relay as it was and the `finally` at lines 251-254 — which would map
`patch.stop_watering()` over `self.patches` after the body completed or
raised in a zone — never runs. The result pairs how the call exited with
the patch states at exit. -/
def perform_watering (ps : List PatchM) (oracle : String → ZoneOutcome) :
    Except PyError Unit × List PatchM :=
  match pulses_read_and_reset with
  | .error e => (.error e, ps)
  | .ok _water_leak =>
    let body := watering_body ps oracle
    let final := body.1.map stop_watering
    match body.2 with
    | some nm => (.error (.zoneException nm), final)
    | none => (.ok (), final)

/-! ## dfrobot/base_sensor.py : presence flag

`BaseRS485ModbusSensor.__read_registers` and `_write_one` wrap one Modbus
exchange: `self._master.execute` either returns data, raises a
`ModbusError` (the slave answered with an exception response), or raises a
serial timeout / `TimeoutError` / `OSError`. Each handled case assigns
`self._is_present`; the outcome of the exchange is the oracle input. -/

inductive ExchangeOutcome where
  | success (data : List ℕ)
  | modbusError
  | ioError
deriving Repr, DecidableEq

/-- `__read_registers`: result is (returned data, new `_is_present`).
On `ModbusError` the handler only sets the flag, so the method falls
through and returns `None`; likewise for serial/time-out errors. -/
def read_registers (_is_present : Bool) (o : ExchangeOutcome) :
    Option (List ℕ) × Bool :=
  match o with
  | .success d => (some d, true)
  | .modbusError => (none, true)
  | .ioError => (none, false)

/-- `_write_one`: returns the new `_is_present`. -/
def write_one (_is_present : Bool) (o : ExchangeOutcome) : Bool :=
  match o with
  | .success _ => true
  | .modbusError => true
  | .ioError => false

/-- The flag across a sequence of attempted read exchanges; nothing else
in the class writes `_is_present`, so between exchanges it is unchanged. -/
def presence_after (init : Bool) (os : List ExchangeOutcome) : Bool :=
  os.foldl (fun p o => (read_registers p o).2) init

/-! ## Theorems -/

/-- The "next 12 hours" filter of `should_water_garden` demands
`now + 12 ≤ w.timestamp` and `w.timestamp < now` at once, which no row
satisfies. -/
theorem future_window_filter_empty (data : List WeatherData) (now : ℚ) :
    data.filter
      (fun w => decide (now + 12 ≤ w.timestamp) && decide (w.timestamp < now))
      = [] := by
  induction data with
  | nil => rfl
  | cons w rest ih =>
    rw [List.filter_cons]
    have hw : (decide (now + 12 ≤ w.timestamp) && decide (w.timestamp < now)) = false := by
      by_cases h1 : now + 12 ≤ w.timestamp
      · by_cases h2 : w.timestamp < now
        · linarith
        · simp [h2]
      · simp [h1]
    rw [hw]
    simpa using ih

theorem should_water_garden_always_true (data : List WeatherData)
    (now thr : ℚ) : should_water_garden data now thr = true := by
  cases data with
  | nil => rfl
  | cons w0 rest =>
    simp only [should_water_garden]
    rw [future_window_filter_empty]
    simp

/-- C1: the claimed rain-based skip logic never fires. The next-12-hour
filter in `should_water_garden` is the unsatisfiable
`now + 12 ≤ w.timestamp < now` (the Python chained comparison is written
backwards), so the forecast window is always empty, `future_data_points`
is always `0 < 6`, and the method returns TRUE for every weather state —
also on `c1_failing_weather`, where the past 12 hours carry a full inch
of rain and six forecast rows exist, for which the claim requires FALSE. -/
theorem c1_should_water_garden_constant_true :
    should_water_garden c1_failing_weather 100 50 = true ∧
    ∀ (data : List WeatherData) (now thr : ℚ),
      should_water_garden data now thr = true :=
  ⟨should_water_garden_always_true c1_failing_weather 100 50,
    should_water_garden_always_true⟩

/-- C4: for every non-negative pulse count `p` and interval `s`, the pulse
counter's volume computation returns `(p/s)/K × (s/60)` liters with
`K = 5.5` when `s > 0`, and `0` when `s ≤ 0`; with `s = 60` seconds and
`p = 330` pulses the result is `1.0 L` within `1e-9` (exactly `1` here, as
the arithmetic is exact over ℚ). -/
theorem c4_read_and_reset_liters_formula :
    (∀ (p : ℕ) (s : ℚ), 0 < s →
      (read_and_reset_liters p s).1 = ((p : ℚ) / s) / 5.5 * (s / 60)) ∧
    (∀ (p : ℕ) (s : ℚ), s ≤ 0 → (read_and_reset_liters p s).1 = 0) ∧
    |(read_and_reset_liters 330 60).1 - 1| ≤ 1e-9 := by
  refine ⟨fun p s hs => ?_, fun p s hs => ?_, by norm_num [read_and_reset_liters,
    WATER_FLOW_FREQUENCY_FACTOR]⟩
  · simp only [read_and_reset_liters, WATER_FLOW_FREQUENCY_FACTOR]
    rw [if_neg (by exact not_le.mpr hs)]
  · simp only [read_and_reset_liters, if_pos hs]

/-- Witness for C4 at `p = 330`, `s = 60`. -/
theorem c4_read_and_reset_liters_formula_witness :
    (0 : ℚ) < 60 ∧
      (read_and_reset_liters 330 60).1 = ((330 : ℚ) / 60) / 5.5 * (60 / 60) :=
  ⟨by norm_num, c4_read_and_reset_liters_formula.1 330 60 (by norm_num)⟩

/-- C9: every call to `read_and_reset_liters` zeroes the accumulated pulse
count, even when the duration is `≤ 0`; in that case the return value is
`0.0` and the pulses counted so far are discarded. -/
theorem c9_reset_even_on_nonpositive_duration :
    ∀ (p : ℕ) (s : ℚ),
      (read_and_reset_liters p s).2 = 0 ∧
      (s ≤ 0 → (read_and_reset_liters p s).1 = 0) := by
  intro p s
  constructor
  · simp only [read_and_reset_liters]
    split <;> rfl
  · intro hs
    simp only [read_and_reset_liters, if_pos hs]

/-- Witness for C9 at `p = 7`, `s = -3`. -/
theorem c9_reset_even_on_nonpositive_duration_witness :
    ((-3 : ℚ) ≤ 0) ∧ (read_and_reset_liters 7 (-3)).2 = 0 ∧
      (read_and_reset_liters 7 (-3)).1 = 0 :=
  ⟨by norm_num, (c9_reset_even_on_nonpositive_duration 7 (-3)).1,
    (c9_reset_even_on_nonpositive_duration 7 (-3)).2 (by norm_num)⟩

/-- C5: for every `x` and every supported ordered unit pair,
`convert_measurement (convert_measurement x A B) B A = x` — exactly over
ℚ, hence in particular within `1e-9` relative tolerance — and
`convert_measurement` maps `None` to `None`. -/
theorem c5_convert_measurement_roundtrip :
    ∀ (x : ℚ) (A B : String), (A, B) ∈ supported_conversions →
      convert_measurement (convert_measurement (some x) A B) B A = some x ∧
      convert_measurement none A B = none := by
  intro x A B hmem
  simp only [supported_conversions, List.mem_cons, List.mem_singleton,
    Prod.mk.injEq, List.not_mem_nil, or_false] at hmem
  rcases hmem with ⟨hA, hB⟩ | ⟨hA, hB⟩ | ⟨hA, hB⟩ | ⟨hA, hB⟩ | ⟨hA, hB⟩ | ⟨hA, hB⟩ <;>
      subst hA <;> subst hB
  · refine ⟨?_, rfl⟩
    rw [show convert_measurement (convert_measurement (some x) "°C" "°F") "°F" "°C"
      = some ((x * 9 / 5 + 32 - 32) * 5 / 9) from rfl]
    congr 1; ring
  · refine ⟨?_, rfl⟩
    rw [show convert_measurement (convert_measurement (some x) "°F" "°C") "°C" "°F"
      = some ((x - 32) * 5 / 9 * 9 / 5 + 32) from rfl]
    congr 1; ring
  · refine ⟨?_, rfl⟩
    rw [show convert_measurement (convert_measurement (some x) "L" "gal") "gal" "L"
      = some (x / 3.785411784 * 3.785411784) from rfl]
    congr 1
    rw [div_mul_cancel₀]
    norm_num
  · refine ⟨?_, rfl⟩
    rw [show convert_measurement (convert_measurement (some x) "gal" "L") "L" "gal"
      = some (x * 3.785411784 / 3.785411784) from rfl]
    congr 1
    rw [mul_div_cancel_right₀]
    norm_num
  · refine ⟨?_, rfl⟩
    rw [show convert_measurement (convert_measurement (some x) "in" "mm") "mm" "in"
      = some (x * 25.4 / 25.4) from rfl]
    congr 1
    rw [mul_div_cancel_right₀]
    norm_num
  · refine ⟨?_, rfl⟩
    rw [show convert_measurement (convert_measurement (some x) "mm" "in") "in" "mm"
      = some (x / 25.4 * 25.4) from rfl]
    congr 1
    rw [div_mul_cancel₀]
    norm_num

/-- Witness for C5 at `x = 7`, pair `(°C, °F)`. -/
theorem c5_convert_measurement_roundtrip_witness :
    ("°C", "°F") ∈ supported_conversions ∧
      convert_measurement (convert_measurement (some 7) "°C" "°F") "°F" "°C" = some 7 ∧
      convert_measurement none "°C" "°F" = none :=
  ⟨by simp [supported_conversions],
    (c5_convert_measurement_roundtrip 7 "°C" "°F" (by simp [supported_conversions])).1,
    (c5_convert_measurement_roundtrip 7 "°C" "°F" (by simp [supported_conversions])).2⟩

/-- C10: for every non-`None` value and every ordered pair of distinct
units that is not one of the six supported conversions,
`convert_measurement` returns the value unchanged; in particular the
plain string `"inch"` (which is not the `Unit` enum value `"in"`) falls
into this identity path when converting to `"mm"`. -/
theorem c10_convert_measurement_identity_on_unsupported :
    (∀ (v : ℚ) (A B : String), A ≠ B → (A, B) ∉ supported_conversions →
      convert_measurement (some v) A B = some v) ∧
    convert_measurement (some RAIN_12H_THRESHOLD_INCHES) "inch" "mm" =
      some RAIN_12H_THRESHOLD_INCHES := by
  constructor
  · intro v A B hne hmem
    simp only [supported_conversions, List.mem_cons, List.mem_singleton,
      Prod.mk.injEq, List.not_mem_nil, or_false, not_or, not_and] at hmem
    obtain ⟨h1, h2, h3, h4, h5, h6⟩ := hmem
    simp only [convert_measurement, if_neg hne]
    rw [if_neg (by rintro ⟨rfl, rfl⟩; exact h1 rfl rfl)]
    rw [if_neg (by rintro ⟨rfl, rfl⟩; exact h2 rfl rfl)]
    rw [if_neg (by rintro ⟨rfl, rfl⟩; exact h3 rfl rfl)]
    rw [if_neg (by rintro ⟨rfl, rfl⟩; exact h4 rfl rfl)]
    rw [if_neg (by rintro ⟨rfl, rfl⟩; exact h5 rfl rfl)]
    rw [if_neg (by rintro ⟨rfl, rfl⟩; exact h6 rfl rfl)]
  · rfl

/-- Witness for C10 at `v = 1`, pair `("inch", "mm")`. -/
theorem c10_convert_measurement_identity_on_unsupported_witness :
    ("inch" ≠ "mm") ∧ (("inch", "mm") ∉ supported_conversions) ∧
      convert_measurement (some 1) "inch" "mm" = some 1 :=
  ⟨by decide, by simp [supported_conversions],
    c10_convert_measurement_identity_on_unsupported.1 1 "inch" "mm" (by decide)
      (by simp [supported_conversions])⟩

/-- The season check raises on every input: resolving
`Settings.GARDENING_SEASON_START` is the first thing scheduler.py:102
does, and the member does not exist. -/
theorem season_check_attribute_error (cfg_start cfg_stop : String)
    (t : ℤ × ℤ) :
    is_in_gardening_season cfg_start cfg_stop t =
      .error (.attributeError "GARDENING_SEASON_START") := rfl

/-- C6: the gardening-season check never performs the claimed interval
test. `_is_in_gardening_season` evaluates
`CONFIG[Settings.GARDENING_SEASON_START]`, and config.py's `Settings` has
no such member (only `GARDENING_SEASON`), so the method raises
`AttributeError` unconditionally — also on the claim's own instance
(valid strings `11-01`/`03-31`, January 15), where the claim requires the
check to return true. -/
theorem c6_season_check_raises_attribute_error :
    parse_month_day "11-01" = some (11, 1) ∧
    parse_month_day "03-31" = some (3, 31) ∧
    is_in_gardening_season "11-01" "03-31" (1, 15) =
      .error (.attributeError "GARDENING_SEASON_START") ∧
    ∀ (cfg_start cfg_stop : String) (t : ℤ × ℤ),
      is_in_gardening_season cfg_start cfg_stop t =
        .error (.attributeError "GARDENING_SEASON_START") :=
  ⟨by decide, by decide, season_check_attribute_error "11-01" "03-31" (1, 15),
    fun cfg_start cfg_stop t => season_check_attribute_error cfg_start cfg_stop t⟩

/-- C7 counterexample: `"bogus"` is not a valid `MM-DD` string, yet the
season check on June 1 does not evaluate to out-of-season (`false`): it
raises `AttributeError` at the `Settings.GARDENING_SEASON_START` access,
before the configured string is read, parsed, or any format error logged. -/
theorem c7_invalid_season_counterexample :
    parse_month_day "bogus" = none ∧
    is_in_gardening_season "bogus" "10-31" (6, 1) =
      .error (.attributeError "GARDENING_SEASON_START") ∧
    is_in_gardening_season "bogus" "10-31" (6, 1) ≠ .ok false := by
  refine ⟨by decide, rfl, ?_⟩
  rw [season_check_attribute_error]
  exact fun h => Except.noConfusion h

/-- C7 amended: for a season configuration string that is not a valid
`MM-DD` format, the gardening-season check for that tick does not evaluate
to out-of-season — it raises `AttributeError` on the nonexistent
`Settings.GARDENING_SEASON_START` member before the string is read or
parsed, logging no format error and returning no boolean; the stored
configuration is not altered (the function only reads it). -/
theorem c7_invalid_season_check_raises_before_parsing :
    ∀ (cfg_start cfg_stop : String) (t : ℤ × ℤ),
      parse_month_day cfg_start = none →
      is_in_gardening_season cfg_start cfg_stop t =
        .error (.attributeError "GARDENING_SEASON_START") ∧
      is_in_gardening_season cfg_start cfg_stop t ≠ .ok false := by
  intro cfg_start cfg_stop t _
  refine ⟨season_check_attribute_error cfg_start cfg_stop t, ?_⟩
  rw [season_check_attribute_error]
  exact fun h => Except.noConfusion h

/-- Witness for the amended C7 at start `"bogus"`, stop `"10-31"`,
`t = (6, 1)`. -/
theorem c7_invalid_season_check_raises_before_parsing_witness :
    parse_month_day "bogus" = none ∧
    is_in_gardening_season "bogus" "10-31" (6, 1) =
      .error (.attributeError "GARDENING_SEASON_START") ∧
    is_in_gardening_season "bogus" "10-31" (6, 1) ≠ .ok false :=
  ⟨by decide,
    (c7_invalid_season_check_raises_before_parsing "bogus" "10-31" (6, 1)
      (by decide)).1,
    (c7_invalid_season_check_raises_before_parsing "bogus" "10-31" (6, 1)
      (by decide)).2⟩

/-- A daily tick either dies on the `AttributeError` raised inside the
guards (scheduler.py:135) or completes without starting a watering cycle
and without changing the stored date. -/
theorem sched_tick_result (last : Option String) (today : String)
    (time_ok : Bool) (cfg_start cfg_stop : String) (md : ℤ × ℤ)
    (rain_thr : ℚ) :
    sched_tick last today time_ok cfg_start cfg_stop md rain_thr =
      .error (.attributeError "GARDENING_SEASON_START") ∨
    sched_tick last today time_ok cfg_start cfg_stop md rain_thr =
      .ok (last, false) := by
  unfold sched_tick
  split_ifs with h1 h2
  · left
    rw [season_check_attribute_error]
  · right; rfl
  · right; rfl

theorem sched_run_count_zero (today cfg_start cfg_stop : String)
    (md : ℤ × ℤ) (rain_thr : ℚ) (ticks : List Bool) :
    ∀ last : Option String,
      (sched_run last today cfg_start cfg_stop md rain_thr ticks).2 = 0 := by
  induction ticks with
  | nil => intro last; rfl
  | cons time_ok rest ih =>
    intro last
    simp only [sched_run]
    rcases sched_tick_result last today time_ok cfg_start cfg_stop md rain_thr
      with h | h
    · rw [h]
    · rw [h]
      simpa using ih last

/-- C2: a scheduler tick whose stored last-watering date already equals
today's key never starts `_perform_watering` and leaves the date unchanged
— the `last_watering_date != today` guard at scheduler.py:133 fails before
any crashing call — whatever the time-of-day and season/rain environment;
and over any run of ticks within one calendar-local date, from any stored
date, the number of started watering cycles is 0 (a tick passing the
guards raises `AttributeError` at line 135 and ends the loop first), in
particular at most one cycle per calendar-local date. -/
theorem c2_at_most_one_watering_per_date :
    (∀ (today : String) (time_ok : Bool) (cfg_start cfg_stop : String)
        (md : ℤ × ℤ) (rain_thr : ℚ),
      sched_tick (some today) today time_ok cfg_start cfg_stop md rain_thr =
        .ok (some today, false)) ∧
    (∀ (last : Option String) (today cfg_start cfg_stop : String)
        (md : ℤ × ℤ) (rain_thr : ℚ) (ticks : List Bool),
      (sched_run last today cfg_start cfg_stop md rain_thr ticks).2 = 0) ∧
    (∀ (last : Option String) (today cfg_start cfg_stop : String)
        (md : ℤ × ℤ) (rain_thr : ℚ) (ticks : List Bool),
      (sched_run last today cfg_start cfg_stop md rain_thr ticks).2 ≤ 1) := by
  refine ⟨fun today time_ok cs ce md thr => ?_,
    fun last today cs ce md thr ticks => sched_run_count_zero today cs ce md thr ticks last,
    fun last today cs ce md thr ticks => ?_⟩
  · simp [sched_tick]
  · rw [sched_run_count_zero today cs ce md thr ticks last]
    norm_num

/-- C3: `_perform_watering` never reaches its relay cleanup. The leak
probe `self.pulses.read_and_reset(metric)` at scheduler.py:208 precedes
the `try` and raises `AttributeError` (`PulseCounter` has no such method),
so for every patch list and every zone behaviour the call exits with the
relays exactly as they were — on the failing input, zone Z1 enters with
its relay energized and is still energized at exit, where the claim
requires every relay de-energized by `stop_watering`. -/
theorem c3_perform_watering_exits_before_relay_cleanup :
    perform_watering [⟨"Z1", true⟩] (fun _ => .completed) =
      (.error (.attributeError "read_and_reset"), [⟨"Z1", true⟩]) ∧
    (PatchM.relay ⟨"Z1", true⟩) = true ∧
    ∀ (ps : List PatchM) (oracle : String → ZoneOutcome),
      perform_watering ps oracle =
        (.error (.attributeError "read_and_reset"), ps) :=
  ⟨rfl, rfl, fun _ps _oracle => rfl⟩

/-- C8: on every attempted Modbus exchange the presence flag is
reassigned — `true` when the exchange succeeds or the slave answers with a
Modbus exception response, `false` on a serial timeout or I/O error — for
reads and writes alike; the new value is independent of the previous one,
the flag is untouched between exchanges (empty run), and after any
sequence of exchanges it equals the value determined by the last one. -/
theorem c8_presence_flag_tracks_exchange_outcome :
    (∀ (p : Bool) (d : List ℕ), (read_registers p (.success d)).2 = true) ∧
    (∀ p : Bool, (read_registers p .modbusError).2 = true) ∧
    (∀ p : Bool, (read_registers p .ioError).2 = false) ∧
    (∀ (p : Bool) (d : List ℕ), write_one p (.success d) = true) ∧
    (∀ p : Bool, write_one p .modbusError = true) ∧
    (∀ p : Bool, write_one p .ioError = false) ∧
    (∀ (p q : Bool) (o : ExchangeOutcome),
      (read_registers p o).2 = (read_registers q o).2 ∧
      write_one p o = write_one q o) ∧
    (∀ init : Bool, presence_after init [] = init) ∧
    (∀ (init : Bool) (os : List ExchangeOutcome) (o : ExchangeOutcome),
      presence_after init (os ++ [o]) = (read_registers true o).2) := by
  refine ⟨fun _ _ => rfl, fun _ => rfl, fun _ => rfl, fun _ _ => rfl,
    fun _ => rfl, fun _ => rfl, fun p q o => ⟨?_, ?_⟩, fun _ => rfl,
    fun init os o => ?_⟩
  · cases o <;> rfl
  · cases o <;> rfl
  · rw [presence_after, List.foldl_append]
    cases o <;> rfl

end Waterly
